import Mathlib

/-!
Shallow embedding of SimpleCAS (`CAS.py`): a small symbolic-algebra system
whose expressions are binary trees of `Node` objects.  Python runtime values
that the code inspects are modelled by the inductive `Val`; Python `None` is
`Val.vnone`; a Python list is modelled by its length only, because the code
under verification only ever queries `len` and `isinstance` on one.
Exceptions are modelled with `Except PyErr`.
-/

namespace SimpleCAS

/-- Mirrors `class Operator(Enum)`: the four math operators, whose enum
values are the Unicode code points of the display glyphs. -/
inductive Operator where
  | add
  | sub
  | mul
  | div
deriving DecidableEq, Repr

/-- Mirrors the enum values `add = 0x2B`, `sub = 0x2D`, `mul = 0xD7`,
`div = 0xF7`. -/
def Operator.value : Operator → Nat
  | .add => 0x2B
  | .sub => 0x2D
  | .mul => 0xD7
  | .div => 0xF7

/-- Mirrors `Operator.__str__`: `return chr(self.value)`. -/
def Operator.str (op : Operator) : String :=
  String.singleton (Char.ofNat op.value)

/-- The Python classes of the objects SimpleCAS builds.  `Expression`
itself is never instantiated directly; every expression object carries one
of the three concrete subclasses (or is a plain `Node`). -/
inductive PyClass where
  | nodeC
  | symbolicVarC
  | symbolicNumC
  | compoundC
deriving DecidableEq, Repr

/-- Python runtime values as far as `CAS.py` inspects them.  `vobj cls v l r`
is an instance of `cls` with attributes `val = v`, `left = l`, `right = r`
(the attributes every `Node` has); absent children are `vnone`.  A list is
modelled by its length only (the code only applies `len` to one). -/
inductive Val where
  | vstr (s : String)
  | vint (n : Int)
  | vbool (b : Bool)
  | vop (op : Operator)
  | vnone
  | vlist (length : Nat)
  | vobj (cls : PyClass) (val : Val) (left : Val) (right : Val)
deriving DecidableEq, Repr

/-- Python exceptions raised by `CAS.py`. -/
inductive PyErr where
  | typeError (msg : String)
  | valueError (msg : String)
deriving DecidableEq, Repr

/-- Python `isinstance(v, int)`; `bool` is a subtype of `int` in Python. -/
def isPyInt : Val → Bool
  | .vint _ => true
  | .vbool _ => true
  | _ => false

/-- Python `isinstance(v, str)`. -/
def isStr : Val → Bool
  | .vstr _ => true
  | _ => false

/-- Python `isinstance(v, Expression)`: instances of the three concrete
subclasses of `Expression`. -/
def isExpression : Val → Bool
  | .vobj cls _ _ _ =>
      cls = .symbolicVarC || cls = .symbolicNumC || cls = .compoundC
  | _ => false

/-- Whether the object is a `CompoundExpression` instance. -/
def isCompound : Val → Bool
  | .vobj .compoundC _ _ _ => true
  | _ => false

/-- Which values support Python `len()`: of the values modelled here, only
strings and lists do; `len` on anything else raises `TypeError`. -/
def hasLen : Val → Bool
  | .vstr _ => true
  | .vlist _ => true
  | _ => false

/-- Message of the `TypeError` raised by `len()` on a value without length. -/
def noLenMsg : String := "object has no len()"

/-- Python `len(v)`: length of a string (in code points) or of a list;
`TypeError` otherwise. -/
def pyLen : Val → Except PyErr Nat
  | .vstr s => .ok s.length
  | .vlist n => .ok n
  | _ => .error (.typeError noLenMsg)

/-- Python `ord` applied to a string, as used in `SymbolicVar.__init__`
(only reached on strings of length 1): the code point of the first
character. -/
def pyOrd (s : String) : Nat :=
  (s.data.headD (Char.ofNat 0)).toNat

/-- The ASCII-letter test from `SymbolicVar.__init__`:
`(97 <= ord(name) <= 122) or (65 <= ord(name) <= 90)`. -/
def isAsciiLetterCode (c : Nat) : Bool :=
  (97 ≤ c && c ≤ 122) || (65 ≤ c && c ≤ 90)

/-- Mirrors `Node.__str__` and `Expression.__str__` (Python `str(v)`),
together with `str` on the primitive values stored in nodes.  A plain
`Node` prints `str(self.val)`; an `Expression` prints `str(self.val)` when
both children are absent, and the parenthesised in-order string otherwise.
Python list display is not modelled (never reachable from an Expression). -/
def pyStr : Val → String
  | .vstr s => s
  | .vint n => if n < 0 then "-" ++ Nat.repr n.natAbs else Nat.repr n.toNat
  | .vbool b => if b then "True" else "False"
  | .vop op => op.str
  | .vnone => "None"
  | .vlist _ => "[list]"
  | .vobj .nodeC v _ _ => pyStr v
  | .vobj _ v l r =>
      let ls := if l = .vnone then "" else pyStr l
      let rs := if r = .vnone then "" else pyStr r
      if ls = "" ∧ rs = "" then pyStr v
      else "(" ++ ls ++ " " ++ pyStr v ++ " " ++ rs ++ ")"

/-- Error message of `SymbolicVar.__init__` (the two adjacent string
literals in the source concatenate to this). -/
def invalidSymbolMsg : String :=
  "Symbol name must be an upper or lower-case string of length 1."

/-- Error message of `SymbolicNum.__init__`. -/
def invalidConstantMsg : String := "Constant must be a non-negative integer."

/-- Error message of `CompoundExpression.__init__`. -/
def typeMismatchMsg : String := "'left' and 'right' must be of type Expression."

/-- The object built by a successful `SymbolicVar.__init__`: the source
calls `super().__init__(Node(name))`, so the instance's `val` attribute is
a fresh `Node` wrapping the name, and both children are `None`. -/
def varLeaf (s : String) : Val :=
  .vobj .symbolicVarC (.vobj .nodeC (.vstr s) .vnone .vnone) .vnone .vnone

/-- The object built by a successful `SymbolicNum.__init__`: `val` is a
fresh `Node` wrapping the integer (or bool) passed in, children `None`. -/
def numLeaf (v : Val) : Val :=
  .vobj .symbolicNumC (.vobj .nodeC v .vnone .vnone) .vnone .vnone

/-- Mirrors `SymbolicVar.__init__`: evaluates `len(name)` first (which
raises `TypeError` on a value without length), then the conjunction
`len(name) == 1 and isinstance(name, str) and (97 <= ord(name) <= 122 or
65 <= ord(name) <= 90)`; on failure raises
`ValueError(invalidSymbolMsg)`. -/
def SymbolicVar_init (name : Val) : Except PyErr Val :=
  match pyLen name, name with
  | .error e, _ => .error e
  | .ok n, .vstr s =>
      if n = 1 ∧ isAsciiLetterCode (pyOrd s) then .ok (varLeaf s)
      else .error (.valueError invalidSymbolMsg)
  | .ok _, _ => .error (.valueError invalidSymbolMsg)

/-- The integer value of an int-like Python value (`True` counts as 1,
`False` as 0), used for the comparison `0 <= val`. -/
def pyIntVal : Val → Int
  | .vint n => n
  | .vbool b => if b then 1 else 0
  | _ => 0

/-- Mirrors `SymbolicNum.__init__`: `if isinstance(val, int) and 0 <= val`
build the leaf, else raise `ValueError(invalidConstantMsg)`. -/
def SymbolicNum_init (val : Val) : Except PyErr Val :=
  if isPyInt val ∧ 0 ≤ pyIntVal val then .ok (numLeaf val)
  else .error (.valueError invalidConstantMsg)

/-- Mirrors `CompoundExpression.__init__`: raise `TypeError` unless both
children are `Expression` instances, else build the node with the
`Operator` as its value. -/
def CompoundExpression_init (op : Operator) (l r : Val) : Except PyErr Val :=
  if isExpression l ∧ isExpression r then .ok (.vobj .compoundC (.vop op) l r)
  else .error (.typeError typeMismatchMsg)

/-- Result of a Python binary-operator method: a returned value (possibly
`None`), the `NotImplemented` sentinel, or a raised exception. -/
inductive OpResult where
  | val (v : Val)
  | notImplemented
  | error (e : PyErr)
deriving DecidableEq, Repr

/-- Lift the result of a constructor call into an `OpResult`. -/
def ofExcept : Except PyErr Val → OpResult
  | .ok v => .val v
  | .error e => .error e

/-- Mirrors `Expression._op`: an `int` operand is promoted with
`SymbolicNum(other)` (whose exception propagates), an `Expression` operand
is used as is, anything else yields `NotImplemented`; the `right` flag
swaps the children. -/
def Expression_op (self other : Val) (op : Operator) (right : Bool) : OpResult :=
  if isPyInt other then
    match SymbolicNum_init other with
    | .error e => .error e
    | .ok num =>
        if !right then ofExcept (CompoundExpression_init op self num)
        else ofExcept (CompoundExpression_init op num self)
  else if isExpression other then
    if !right then ofExcept (CompoundExpression_init op self other)
    else ofExcept (CompoundExpression_init op other self)
  else .notImplemented

/-- Virtual dispatch of `self._op(...)` as invoked by `__add__`, `__radd__`
and the other dunder methods: `SymbolicNum` overrides `_op` with a stub
whose body is `pass`, so on a `SymbolicNum` receiver the call returns
`None`; every other `Expression` uses `Expression._op`. -/
def dispatch_op (self other : Val) (op : Operator) (right : Bool) : OpResult :=
  match self with
  | .vobj .symbolicNumC _ _ _ => .val .vnone
  | _ => Expression_op self other op right

/-- Python's binary-operator protocol for `x op y` when at least one
operand is an `Expression` (the only cases exercised by SimpleCAS): the
left operand's method is tried first; an `int` left operand returns
`NotImplemented` on an `Expression`, after which the right operand's
reflected method runs with the `right` flag set. -/
def binOp (x y : Val) (op : Operator) : OpResult :=
  if isExpression x then
    match dispatch_op x y op false with
    | .notImplemented =>
        if isExpression y then dispatch_op y x op true
        else .error (.typeError "unsupported operand type(s)")
    | r => r
  else if isExpression y then
    match dispatch_op y x op true with
    | .notImplemented => .error (.typeError "unsupported operand type(s)")
    | r => r
  else .error (.typeError "unsupported operand type(s)")

/-- Mirrors `CompoundExpression.commute`: swap the two children in place
(modelled functionally); only `CompoundExpression` has this method. -/
def commute : Val → Val
  | .vobj .compoundC v l r => .vobj .compoundC v r l
  | v => v

/-- Mirrors `Expression.__eq__`, whose body is `pass`: the call returns
`None`, whatever the operands. -/
def Expression_eq (_self _other : Val) : Val := .vnone

/-- Mirrors `CompoundExpression.assoc_right`, whose body is `pass`:
returns `None` and leaves the tree unchanged. -/
def CompoundExpression_assoc_right (_self : Val) : Val := .vnone

/-- Mirrors `CompoundExpression.assoc_left`, whose body is `pass`. -/
def CompoundExpression_assoc_left (_self : Val) : Val := .vnone

/-- Mirrors `SymbolicVar.specialize`, whose body is `pass`: returns
`None`. -/
def SymbolicVar_specialize (_self _val : Val) : Val := .vnone

/-- Mirrors `SymbolicNum._op`, whose body is `pass`: returns `None`. -/
def SymbolicNum_op (_self _other : Val) (_op : Operator) (_right : Bool) : Val :=
  .vnone

/-- The `val` attribute of an object (used to state what a constructor
stored at the root). -/
def objVal : Val → Val
  | .vobj _ v _ _ => v
  | _ => .vnone

/-- The `left` attribute of an object. -/
def objLeft : Val → Val
  | .vobj _ _ l _ => l
  | _ => .vnone

/-- The `right` attribute of an object. -/
def objRight : Val → Val
  | .vobj _ _ _ r => r
  | _ => .vnone

/-- The expression objects reachable through the public constructors:
variable leaves with a valid one-letter name, number leaves holding a
non-negative int or a bool, and compounds of two such expressions. -/
inductive WfExpr : Val → Prop where
  | var (s : String) (h1 : s.length = 1) (h2 : isAsciiLetterCode (pyOrd s) = true) :
      WfExpr (varLeaf s)
  | numInt (n : Int) (h : 0 ≤ n) : WfExpr (numLeaf (.vint n))
  | numBool (b : Bool) : WfExpr (numLeaf (.vbool b))
  | compound (op : Operator) (l r : Val) (hl : WfExpr l) (hr : WfExpr r) :
      WfExpr (.vobj .compoundC (.vop op) l r)

/-! Helper lemmas. -/

/-- The accumulator never shrinks while `Nat.toDigitsCore` runs. -/
theorem toDigitsCore_len_le (b : Nat) :
    ∀ (f n : Nat) (l : List Char), l.length ≤ (Nat.toDigitsCore b f n l).length := by
  intro f
  induction f with
  | zero => intro n l; simp [Nat.toDigitsCore]
  | succ f ih =>
      intro n l
      unfold Nat.toDigitsCore
      by_cases hnb : n / b = 0
      · simp [hnb]
      · simp only [hnb, if_false]
        calc l.length ≤ (Nat.digitChar (n % b) :: l).length := by simp
          _ ≤ _ := ih _ _

/-- The decimal representation of a natural number is never the empty
string. -/
theorem Nat_repr_ne_empty (n : Nat) : Nat.repr n ≠ "" := by
  have h : 1 ≤ (Nat.toDigits 10 n).length := by
    unfold Nat.toDigits Nat.toDigitsCore
    by_cases hnb : n / 10 = 0
    · simp [hnb]
    · simp only [hnb, if_false]
      calc 1 ≤ ([Nat.digitChar (n % 10)] : List Char).length := by simp
        _ ≤ _ := toDigitsCore_len_le 10 _ _ _
  intro hc
  have h2 : (Nat.repr n).length = 0 := by rw [hc]; rfl
  have h3 : (Nat.repr n).length = (Nat.toDigits 10 n).length := by
    simp [Nat.repr, List.asString, String.length]
  omega

/-- Every well-formed expression is an object. -/
theorem WfExpr.isObj {e : Val} (h : WfExpr e) : ∃ c v l r, e = .vobj c v l r := by
  cases h <;> exact ⟨_, _, _, _, rfl⟩

/-- Every well-formed expression is distinct from Python `None`. -/
theorem WfExpr.ne_vnone {e : Val} (h : WfExpr e) : e ≠ .vnone := by
  obtain ⟨c, v, l, r, rfl⟩ := h.isObj
  exact fun hc => Val.noConfusion hc

/-- Every well-formed expression passes `isinstance(·, Expression)`. -/
theorem WfExpr.isExpr {e : Val} (h : WfExpr e) : isExpression e = true := by
  cases h <;> rfl

/-- A variable leaf renders as its name. -/
theorem pyStr_varLeaf (s : String) : pyStr (varLeaf s) = s := rfl

/-- A number leaf holding a non-negative integer renders as its decimal
digits. -/
theorem pyStr_numLeaf_int (n : Int) (h : 0 ≤ n) :
    pyStr (numLeaf (.vint n)) = Nat.repr n.toNat := by
  show (if n < 0 then "-" ++ Nat.repr n.natAbs else Nat.repr n.toNat) = Nat.repr n.toNat
  rw [if_neg (Int.not_lt.mpr h)]

/-- A number leaf holding a bool renders as Python prints the bool. -/
theorem pyStr_numLeaf_bool (b : Bool) :
    pyStr (numLeaf (.vbool b)) = if b then "True" else "False" := rfl

/-- Rendering of a compound node whose children are present and whose left
child renders to a non-empty string: the parenthesised infix form. -/
theorem pyStr_compound (op : Operator) (l r : Val)
    (hl : l ≠ .vnone) (hr : r ≠ .vnone) (hne : pyStr l ≠ "") :
    pyStr (.vobj .compoundC (.vop op) l r)
      = "(" ++ pyStr l ++ " " ++ Operator.str op ++ " " ++ pyStr r ++ ")" := by
  show (let ls := if l = .vnone then "" else pyStr l
        let rs := if r = .vnone then "" else pyStr r
        if ls = "" ∧ rs = "" then pyStr (.vop op)
        else "(" ++ ls ++ " " ++ pyStr (.vop op) ++ " " ++ rs ++ ")") = _
  simp only [if_neg hl, if_neg hr]
  rw [if_neg (fun hc => hne hc.1)]
  rfl

/-- The rendering of a well-formed expression is never the empty string. -/
theorem pyStr_ne_empty {e : Val} (h : WfExpr e) : pyStr e ≠ "" := by
  induction h with
  | var s h1 h2 =>
      rw [pyStr_varLeaf]
      intro hc
      rw [hc] at h1
      simp at h1
  | numInt n hn =>
      rw [pyStr_numLeaf_int n hn]
      exact Nat_repr_ne_empty _
  | numBool b => cases b <;> simp [pyStr_numLeaf_bool]
  | compound op l r hl hr ihl ihr =>
      rw [pyStr_compound op l r hl.ne_vnone hr.ne_vnone ihl]
      intro hc
      have h2 := congrArg String.length hc
      simp [String.length_append] at h2
      exact absurd h2.1.1.1.1.1.1 (by decide)

/-- A constructor call on two `Expression` instances succeeds and stores
the operator with the two children in order. -/
theorem CompoundExpression_init_ok {op : Operator} {l r : Val}
    (hl : isExpression l = true) (hr : isExpression r = true) :
    CompoundExpression_init op l r = .ok (.vobj .compoundC (.vop op) l r) := by
  unfold CompoundExpression_init
  rw [if_pos ⟨hl, hr⟩]

/-- Inversion for a successful combinator step: the result is the compound
node with the two children in order, and both were `Expression`s. -/
theorem ofExcept_init_val {op : Operator} {l r : Val} {e : Val}
    (h : ofExcept (CompoundExpression_init op l r) = .val e) :
    e = .vobj .compoundC (.vop op) l r
      ∧ isExpression l = true ∧ isExpression r = true := by
  unfold CompoundExpression_init at h
  split at h
  · rename_i hcond
    refine ⟨?_, hcond.1, hcond.2⟩
    have := OpResult.val.inj h
    exact this.symm
  · exact absurd h (by simp [ofExcept])

/-! Claim theorems. -/

/-- Claim C1: every binary combinator on every Expression variant is said
to return a CompoundExpression, with a plain-integer operand promoted to a
SymbolicNum.  The code fails this on `SymbolicNum` receivers: `SymbolicNum`
overrides `_op` with a stub whose body is `pass`, so `SymbolicNum(3) + 5`
and `SymbolicNum(3) + SymbolicVar("a")` evaluate to `None`, while a
`SymbolicVar` receiver does return the promoted compound tree exactly as
claimed. -/
theorem C1_symbolicNum_combinator_returns_none :
    binOp (numLeaf (.vint 3)) (.vint 5) .add = .val .vnone
  ∧ binOp (numLeaf (.vint 3)) (varLeaf "a") .add = .val .vnone
  ∧ binOp (varLeaf "a") (.vint 5) .add
      = .val (.vobj .compoundC (.vop .add) (varLeaf "a") (numLeaf (.vint 5)))
  ∧ binOp (varLeaf "a") (.vint 5) .add = binOp (varLeaf "a") (numLeaf (.vint 5)) .add :=
  ⟨rfl, rfl, rfl, rfl⟩

/-- Claim C2 counterexample: the unimplemented operations do not fail with
an explicit "not implemented" signal; their bodies are `pass`, so each call
silently returns `None` at these concrete inputs. -/
theorem C2_counterexample :
    Expression_eq (varLeaf "a") (varLeaf "b") = .vnone
  ∧ CompoundExpression_assoc_right
      (.vobj .compoundC (.vop .add) (varLeaf "a") (varLeaf "b")) = .vnone
  ∧ CompoundExpression_assoc_left
      (.vobj .compoundC (.vop .add) (varLeaf "a") (varLeaf "b")) = .vnone
  ∧ SymbolicVar_specialize (varLeaf "x") (.vint 3) = .vnone :=
  ⟨rfl, rfl, rfl, rfl⟩

/-- Claim C2 amended: every invocation of an unimplemented operation
(equality, assoc rotations, specialize, SymbolicNum auto-reduction)
silently returns `None` without raising; the only explicit
"not implemented" signal in the code is the `NotImplemented` sentinel that
`Expression._op` returns for an operand that is neither an int nor an
Expression. -/
theorem C2_amended_stubs_return_none (a b v : Val) (op : Operator) (r : Bool) :
    Expression_eq a b = .vnone
  ∧ CompoundExpression_assoc_right a = .vnone
  ∧ CompoundExpression_assoc_left a = .vnone
  ∧ SymbolicVar_specialize a v = .vnone
  ∧ SymbolicNum_op a b op r = .vnone
  ∧ Expression_op a (.vstr "?") op r = .notImplemented :=
  ⟨rfl, rfl, rfl, rfl, rfl, rfl⟩

/-- Claim C3 counterexample: the value stored at the root of
`SymbolicVar("a")` is not the raw symbol name; the constructor calls
`super().__init__(Node(name))`, so the stored value is a `Node` wrapper
around the name. -/
theorem C3_counterexample :
    SymbolicVar_init (.vstr "a") = .ok (varLeaf "a")
  ∧ objVal (varLeaf "a") ≠ .vstr "a"
  ∧ objVal (varLeaf "a") = .vobj .nodeC (.vstr "a") .vnone .vnone := by
  refine ⟨rfl, ?_, rfl⟩
  decide

/-- Claim C3 amended: for every successfully constructed leaf Expression,
the value stored in its root node is a `Node` wrapping the raw tagged
value (`Node(c)` for `SymbolicVar(c)`, `Node(n)` for `SymbolicNum(n)`),
with both child slots empty. -/
theorem C3_amended_leaf_val_is_node_wrapper (s : String) (n : Int) (e1 e2 : Val)
    (h1 : SymbolicVar_init (.vstr s) = .ok e1)
    (h2 : SymbolicNum_init (.vint n) = .ok e2) :
    objVal e1 = .vobj .nodeC (.vstr s) .vnone .vnone
  ∧ objLeft e1 = .vnone ∧ objRight e1 = .vnone
  ∧ objVal e2 = .vobj .nodeC (.vint n) .vnone .vnone
  ∧ objLeft e2 = .vnone ∧ objRight e2 = .vnone := by
  unfold SymbolicVar_init at h1
  unfold SymbolicNum_init at h2
  simp only [pyLen] at h1
  split at h1
  · cases h1
    split at h2
    · cases h2
      exact ⟨rfl, rfl, rfl, rfl, rfl, rfl⟩
    · cases h2
  · cases h1

/-- Claim C3 amended, witness at `SymbolicVar("a")` and `SymbolicNum(7)`. -/
theorem C3_amended_leaf_val_is_node_wrapper_witness :
    objVal (varLeaf "a") = .vobj .nodeC (.vstr "a") .vnone .vnone
  ∧ objLeft (varLeaf "a") = .vnone ∧ objRight (varLeaf "a") = .vnone
  ∧ objVal (numLeaf (.vint 7)) = .vobj .nodeC (.vint 7) .vnone .vnone
  ∧ objLeft (numLeaf (.vint 7)) = .vnone ∧ objRight (numLeaf (.vint 7)) = .vnone :=
  C3_amended_leaf_val_is_node_wrapper "a" 7 (varLeaf "a") (numLeaf (.vint 7)) rfl rfl

/-- Claim C5: on every CompoundExpression, calling `commute()` twice
restores the original child order and hence the original render string. -/
theorem C5_commute_involution (e : Val) (h : isCompound e = true) :
    commute (commute e) = e ∧ pyStr (commute (commute e)) = pyStr e := by
  cases e
  case vobj c v l r => cases c <;> exact ⟨rfl, rfl⟩
  all_goals simp [isCompound] at h

/-- Claim C5, witness on the compound `(a + 10)`. -/
theorem C5_commute_involution_witness :
    commute (commute (.vobj .compoundC (.vop .add) (varLeaf "a") (numLeaf (.vint 10))))
      = .vobj .compoundC (.vop .add) (varLeaf "a") (numLeaf (.vint 10))
  ∧ pyStr (commute (commute
        (.vobj .compoundC (.vop .add) (varLeaf "a") (numLeaf (.vint 10)))))
      = pyStr (.vobj .compoundC (.vop .add) (varLeaf "a") (numLeaf (.vint 10))) :=
  C5_commute_involution _ rfl

/-- Claim C4: the compound of two expressions under `op` renders as
`"(" ++ render(A) ++ " " ++ glyph(op) ++ " " ++ render(B) ++ ")"`, with
glyphs `+`, `-`, `×`, `÷`, and leaves render without parentheses (a
variable leaf renders as its name, a number leaf as its decimal digits). -/
theorem C4_compound_render (op : Operator) (A B : Val)
    (hA : WfExpr A) (hB : WfExpr B) :
    CompoundExpression_init op A B = .ok (.vobj .compoundC (.vop op) A B)
  ∧ pyStr (.vobj .compoundC (.vop op) A B)
      = "(" ++ pyStr A ++ " " ++ Operator.str op ++ " " ++ pyStr B ++ ")"
  ∧ Operator.str .add = "+" ∧ Operator.str .sub = "-"
  ∧ Operator.str .mul = "×" ∧ Operator.str .div = "÷"
  ∧ (∀ s, pyStr (varLeaf s) = s)
  ∧ (∀ m : Nat, pyStr (numLeaf (.vint (m : Int))) = Nat.repr m) := by
  refine ⟨CompoundExpression_init_ok hA.isExpr hB.isExpr,
    pyStr_compound op A B hA.ne_vnone hB.ne_vnone (pyStr_ne_empty hA),
    by decide, by decide, by decide, by decide, pyStr_varLeaf, fun m => ?_⟩
  rw [pyStr_numLeaf_int _ (by exact_mod_cast Nat.zero_le m)]
  simp

/-- Claim C4, witness on `a + 10`. -/
theorem C4_compound_render_witness :
    CompoundExpression_init .add (varLeaf "a") (numLeaf (.vint 10))
      = .ok (.vobj .compoundC (.vop .add) (varLeaf "a") (numLeaf (.vint 10)))
  ∧ pyStr (.vobj .compoundC (.vop .add) (varLeaf "a") (numLeaf (.vint 10)))
      = "(a + 10)" := by
  have h := C4_compound_render .add (varLeaf "a") (numLeaf (.vint 10))
    (WfExpr.var "a" (by decide) (by decide)) (WfExpr.numInt 10 (by decide))
  refine ⟨h.1, ?_⟩
  rw [h.2.1]
  decide

/-- Claim C6: `SymbolicVar` construction on a string succeeds exactly when
the string has one code point which is an ASCII letter, in which case the
leaf renders as that character; otherwise it fails with the `ValueError`
whose message is `invalidSymbolMsg`. -/
theorem C6_symbolicVar_validation (s : String) :
    (s.length = 1 ∧ isAsciiLetterCode (pyOrd s) = true →
        SymbolicVar_init (.vstr s) = .ok (varLeaf s) ∧ pyStr (varLeaf s) = s)
  ∧ (¬(s.length = 1 ∧ isAsciiLetterCode (pyOrd s) = true) →
        SymbolicVar_init (.vstr s) = .error (.valueError invalidSymbolMsg)) := by
  constructor
  · rintro ⟨h1, h2⟩
    refine ⟨?_, pyStr_varLeaf s⟩
    show (if s.length = 1 ∧ isAsciiLetterCode (pyOrd s) = true
         then (Except.ok (varLeaf s) : Except PyErr Val)
         else .error (.valueError invalidSymbolMsg)) = _
    rw [if_pos ⟨h1, h2⟩]
  · intro h
    show (if s.length = 1 ∧ isAsciiLetterCode (pyOrd s) = true
         then (Except.ok (varLeaf s) : Except PyErr Val)
         else .error (.valueError invalidSymbolMsg)) = _
    rw [if_neg h]

/-- Claim C6, witness at `"a"` (succeeds, renders `a`), `"ab"` and `"1"`
(both rejected with the documented message). -/
theorem C6_symbolicVar_validation_witness :
    SymbolicVar_init (.vstr "a") = .ok (varLeaf "a")
  ∧ pyStr (varLeaf "a") = "a"
  ∧ SymbolicVar_init (.vstr "ab") = .error (.valueError invalidSymbolMsg)
  ∧ SymbolicVar_init (.vstr "1") = .error (.valueError invalidSymbolMsg) := by
  have h1 := (C6_symbolicVar_validation "a").1 (by decide)
  have h2 := (C6_symbolicVar_validation "ab").2 (by decide)
  have h3 := (C6_symbolicVar_validation "1").2 (by decide)
  exact ⟨h1.1, h1.2, h2, h3⟩

/-- Claim C7: `SymbolicNum` construction on an integer succeeds exactly
when the integer is non-negative, in which case the leaf renders as the
decimal digits of the integer; a negative integer is rejected with the
`ValueError` whose message is `invalidConstantMsg`. -/
theorem C7_symbolicNum_validation (n : Int) :
    (0 ≤ n → SymbolicNum_init (.vint n) = .ok (numLeaf (.vint n))
        ∧ pyStr (numLeaf (.vint n)) = Nat.repr n.toNat)
  ∧ (n < 0 → SymbolicNum_init (.vint n) = .error (.valueError invalidConstantMsg)) := by
  constructor
  · intro h
    refine ⟨?_, pyStr_numLeaf_int n h⟩
    unfold SymbolicNum_init
    rw [if_pos ⟨rfl, h⟩]
  · intro h
    unfold SymbolicNum_init
    rw [if_neg (fun hc => absurd hc.2 (Int.not_le.mpr h))]

/-- Claim C7, witness at `10` (succeeds, renders `10`) and `-1`
(rejected). -/
theorem C7_symbolicNum_validation_witness :
    SymbolicNum_init (.vint 10) = .ok (numLeaf (.vint 10))
  ∧ pyStr (numLeaf (.vint 10)) = "10"
  ∧ SymbolicNum_init (.vint (-1)) = .error (.valueError invalidConstantMsg) := by
  have h1 := (C7_symbolicNum_validation 10).1 (by decide)
  have h2 := (C7_symbolicNum_validation (-1)).2 (by decide)
  refine ⟨h1.1, ?_, h2⟩
  rw [h1.2]
  decide

/-- Claim C8: a combinator invoked with the `right` flag (the reflected
case, e.g. `5 + symbol`) produces the compound with the promoted left
operand as left child and the receiver as right child — the children
swapped relative to the primary combinator — and `5 + symbol` renders as
`"(5 + a)"`. -/
theorem C8_reflected_order (self other e : Val) (op : Operator)
    (h : Expression_op self other op true = .val e) :
    (∃ l, e = .vobj .compoundC (.vop op) l self
        ∧ Expression_op self other op false
            = .val (.vobj .compoundC (.vop op) self l)
        ∧ (isPyInt other = true → l = numLeaf other)
        ∧ (isPyInt other = false → l = other))
  ∧ binOp (.vint 5) (varLeaf "a") .add
      = .val (.vobj .compoundC (.vop .add) (numLeaf (.vint 5)) (varLeaf "a"))
  ∧ pyStr (.vobj .compoundC (.vop .add) (numLeaf (.vint 5)) (varLeaf "a"))
      = "(5 + a)" := by
  refine ⟨?_, rfl, by decide⟩
  by_cases hint : isPyInt other = true
  · unfold Expression_op at h ⊢
    rw [if_pos hint] at h ⊢
    cases hS : SymbolicNum_init other with
    | error err => rw [hS] at h; cases h
    | ok num =>
        rw [hS] at h
        have h' : ofExcept (CompoundExpression_init op num self) = .val e := by
          simpa using h
        obtain ⟨he, hnum, hself⟩ := ofExcept_init_val h'
        have hnumleaf : num = numLeaf other := by
          unfold SymbolicNum_init at hS
          split at hS
          · exact (Except.ok.inj hS).symm
          · cases hS
        refine ⟨num, by rw [he], ?_, fun _ => hnumleaf, ?_⟩
        · show ofExcept (CompoundExpression_init op self num) = _
          rw [CompoundExpression_init_ok hself hnum]
          rfl
        · intro hf
          exact absurd (hf ▸ hint) (by decide)
  · rw [Bool.not_eq_true] at hint
    unfold Expression_op at h ⊢
    rw [if_neg (by simp [hint])] at h ⊢
    by_cases hexp : isExpression other = true
    · rw [if_pos hexp] at h ⊢
      have h' : ofExcept (CompoundExpression_init op other self) = .val e := by
        simpa using h
      obtain ⟨he, hother, hself⟩ := ofExcept_init_val h'
      refine ⟨other, by rw [he], ?_, ?_, fun _ => rfl⟩
      · show ofExcept (CompoundExpression_init op self other) = _
        rw [CompoundExpression_init_ok hself hother]
        rfl
      · intro ht
        exact absurd (hint ▸ ht) (by decide)
    · rw [if_neg hexp] at h
      cases h

/-- Claim C8, witness at `5 + SymbolicVar("a")`. -/
theorem C8_reflected_order_witness :
    (∃ l, (.vobj .compoundC (.vop .add) (numLeaf (.vint 5)) (varLeaf "a") : Val)
            = .vobj .compoundC (.vop .add) l (varLeaf "a")
        ∧ Expression_op (varLeaf "a") (.vint 5) .add false
            = .val (.vobj .compoundC (.vop .add) (varLeaf "a") l)
        ∧ (isPyInt (.vint 5) = true → l = numLeaf (.vint 5))
        ∧ (isPyInt (.vint 5) = false → l = (.vint 5)))
  ∧ binOp (.vint 5) (varLeaf "a") .add
      = .val (.vobj .compoundC (.vop .add) (numLeaf (.vint 5)) (varLeaf "a"))
  ∧ pyStr (.vobj .compoundC (.vop .add) (numLeaf (.vint 5)) (varLeaf "a"))
      = "(5 + a)" :=
  C8_reflected_order (varLeaf "a") (.vint 5)
    (.vobj .compoundC (.vop .add) (numLeaf (.vint 5)) (varLeaf "a")) .add rfl

/-- Claim C9: `SymbolicVar` construction on a value without a length (an
int, a bool, `None`, an object, ...) fails with the `TypeError` from the
`len()` call — the length check runs before the string-type check — while
a length-1 non-string value such as a one-element list fails with the
`ValueError` carrying `invalidSymbolMsg`. -/
theorem C9_symbolicVar_nonstring (v : Val) (h : hasLen v = false) :
    SymbolicVar_init v = .error (.typeError noLenMsg)
  ∧ SymbolicVar_init (.vint 5) = .error (.typeError noLenMsg)
  ∧ SymbolicVar_init (.vlist 1) = .error (.valueError invalidSymbolMsg) := by
  refine ⟨?_, rfl, rfl⟩
  cases v <;> first | rfl | simp [hasLen] at h

/-- Claim C9, witness at the Python values `True`, `5` and `["a"]`. -/
theorem C9_symbolicVar_nonstring_witness :
    SymbolicVar_init (.vbool true) = .error (.typeError noLenMsg)
  ∧ SymbolicVar_init (.vint 5) = .error (.typeError noLenMsg)
  ∧ SymbolicVar_init (.vlist 1) = .error (.valueError invalidSymbolMsg) :=
  C9_symbolicVar_nonstring (.vbool true) rfl

/-- Claim C10: `SymbolicNum(True)` succeeds because `bool` is a subtype of
`int`, the resulting leaf renders as `"True"` (not as a decimal digit
string), and a bool operand passed to a binary combinator is promoted to a
`SymbolicNum` instead of being rejected, on either side. -/
theorem C10_bool_accepted (self : Val) (hself : isExpression self = true) :
    SymbolicNum_init (.vbool true) = .ok (numLeaf (.vbool true))
  ∧ pyStr (numLeaf (.vbool true)) = "True"
  ∧ pyStr (numLeaf (.vbool true)) ≠ Nat.repr 1
  ∧ (∀ op : Operator,
        Expression_op self (.vbool true) op false
          = .val (.vobj .compoundC (.vop op) self (numLeaf (.vbool true)))
      ∧ Expression_op self (.vbool true) op true
          = .val (.vobj .compoundC (.vop op) (numLeaf (.vbool true)) self)) := by
  refine ⟨rfl, rfl, by decide, fun op => ⟨?_, ?_⟩⟩
  · show ofExcept (CompoundExpression_init op self (numLeaf (.vbool true))) = _
    rw [@CompoundExpression_init_ok op self (numLeaf (.vbool true)) hself rfl]
    rfl
  · show ofExcept (CompoundExpression_init op (numLeaf (.vbool true)) self) = _
    rw [@CompoundExpression_init_ok op (numLeaf (.vbool true)) self rfl hself]
    rfl

/-- Claim C10, witness with `SymbolicVar("a")` as the other operand. -/
theorem C10_bool_accepted_witness :
    SymbolicNum_init (.vbool true) = .ok (numLeaf (.vbool true))
  ∧ pyStr (numLeaf (.vbool true)) = "True"
  ∧ Expression_op (varLeaf "a") (.vbool true) .add false
      = .val (.vobj .compoundC (.vop .add) (varLeaf "a") (numLeaf (.vbool true))) := by
  have h := C10_bool_accepted (varLeaf "a") rfl
  exact ⟨h.1, h.2.1, (h.2.2.2 .add).1⟩

end SimpleCAS
